import Mathlib

/-!
Shallow embedding of `jedi/plugins/typeshed.py` (the typeshed stub-overlay
plugin): stub directory enumeration, stub index construction and merging,
the per-version index cache, the `import_module` wrapper, and the
stub-name merging filter machinery.

Python strings are modelled as Lean `String`; the handful of Python string
operations the source uses (`str.rstrip`, `str.endswith`, the
`(\d+)\.(\d+)$` regular expression) are implemented structurally over the
character list so that all definitions evaluate by kernel reduction.
Filesystem access (`os.listdir`, `os.path.isdir`, `os.path.isfile`) is a
record of functions; a failing `os.listdir` (missing or unreadable
directory, i.e. `FileNotFoundError`/`OSError`) is `none`.  Python
exceptions that escape a function are modelled with `Except Unit`.
-/

namespace Typeshed

/-- Drop the longest suffix of characters satisfying `p` (structurally
recursive so that it reduces on concrete input). -/
def dropRightWhileL (p : Char → Bool) : List Char → List Char
  | [] => []
  | c :: rest =>
    match dropRightWhileL p rest with
    | [] => if p c then [] else [c]
    | r => c :: r

/-- Python `s.rstrip('.pyi')`: removes all trailing characters belonging to
the character set `{'.', 'p', 'y', 'i'}` (NOT the literal suffix `".pyi"`). -/
def pyRstripPyi (s : String) : String :=
  String.mk (dropRightWhileL (fun c => c = '.' ∨ c = 'p' ∨ c = 'y' ∨ c = 'i') s.data)

/-- `suf` is a suffix of `l`. -/
def isSuffixL (suf l : List Char) : Bool :=
  List.isPrefixOf suf.reverse l.reverse

/-- Python `s.endswith(suf)`. -/
def pyEndsWith (s suf : String) : Bool :=
  isSuffixL suf.data s.data

/-- Split a leading run of decimal digits off a character list. -/
def spanDigits : List Char → (List Char × List Char)
  | [] => ([], [])
  | c :: rest =>
    if c.isDigit then
      let (a, b) := spanDigits rest
      (c :: a, b)
    else ([], c :: rest)

/-- Numeric value of a digit run (Python `int(...)` on the regex group). -/
def digitsToNat (l : List Char) : Nat :=
  l.foldl (fun acc c => acc * 10 + (c.toNat - 48)) 0

/-- Python `re.match(r'(\d+)\.(\d+)$', s)`: the whole string must be a digit
run, a dot, and a second digit run; returns the two groups as numbers. -/
def matchVersionPattern (s : String) : Option (Nat × Nat) :=
  let (d1, rest) := spanDigits s.data
  if d1.isEmpty then none
  else
    match rest with
    | '.' :: rest2 =>
      let (d2, rest3) := spanDigits rest2
      if d2.isEmpty then none
      else if rest3.isEmpty then some (digitsToNat d1, digitsToNat d2)
      else none
    | _ => none

/-- Python `os.path.join(a, b)` for a relative second component. -/
def pathJoin (a b : String) : String := a ++ "/" ++ b

/-- Lookup in a Python dict modelled as its insertion sequence: the most
recently inserted binding for a key wins (as with `dict(...)` built from a
generator with duplicate keys, and with `dict.update`). -/
def dictGet {α β : Type} [DecidableEq α] : List (α × β) → α → Option β
  | [], _ => none
  | p :: rest, k => (dictGet rest k).or (if p.1 = k then some p.2 else none)

/-- The filesystem as seen through `os.listdir` / `os.path.isdir` /
`os.path.isfile`.  `listdir = none` models a raised
`FileNotFoundError`/`OSError` (missing or unreadable directory). -/
structure FS where
  listdir : String → Option (List String)
  isDir : String → Bool
  isFile : String → Bool

/-- A stub index: importable name to stub-file path, in insertion order. -/
abbrev StubMap := List (String × String)

/-- `_create_stub_map(directory)`: mapping of an importable name to a stub
file.  A listing failure is swallowed (`except (FileNotFoundError, OSError):
return`) and yields the empty mapping.  A subdirectory with an inner
`__init__.pyi` registers under the subdirectory name; a `*.pyi` file
registers under `entry.rstrip('.pyi')` unless that equals `"__init__"`. -/
def _create_stub_map (fs : FS) (directory : String) : StubMap :=
  match fs.listdir directory with
  | none => []
  | some listed =>
    listed.filterMap (fun entry =>
      let path := pathJoin directory entry
      if fs.isDir path then
        let init := pathJoin path "__init__.pyi"
        if fs.isFile init then some (entry, init) else none
      else if pyEndsWith entry ".pyi" ∧ fs.isFile path then
        let name := pyRstripPyi entry
        if name ≠ "__init__" then some (name, path) else none
      else none)

/-- `_merge_create_stub_map(directories)`: start from the empty dict and
`update` it with each directory's map in order (later entries override). -/
def _merge_create_stub_map (fs : FS) (directories : List String) : StubMap :=
  directories.foldl (fun map_ d => map_ ++ _create_stub_map fs d) []

/-- `version_info` as consumed by the plugin (`.major`, `.minor`,
`version_info[:2]`). -/
structure VersionInfo where
  major : Nat
  minor : Nat
deriving DecidableEq

/-- The sublist of directory entries matched by
`re.match(r'(\d+)\.(\d+)$', entry)` whose major equals the requested major
and whose minor is at most the requested minor, in listing order. -/
def versionMatches (vi : VersionInfo) (entries : List String) : List String :=
  entries.filter (fun e =>
    match matchVersionPattern e with
    | some (ma, mi) => ma = vi.major ∧ mi ≤ vi.minor
    | none => false)

/-- One iteration of the outer loop of `_get_typeshed_directories`: list the
root-category directory (`os.listdir(base)` is NOT guarded by any
`try`/`except` here), extend the running `check_version_list`, and yield one
path per qualifier currently in the list. -/
def scanBase (fs : FS) (vi : VersionInfo) (quals : List String) (base : String) :
    Option (List String × List String) :=
  match fs.listdir base with
  | none => none
  | some entries =>
    let quals2 := quals ++ versionMatches vi entries
    some (quals2, quals2.map (fun q => pathJoin base q))

/-- `_get_typeshed_directories(version_info)`: seed
`check_version_list = ['2and3', str(major)]`, then for each of the root
categories `stdlib` and `third_party` (in that order) extend the list with
matching version subdirectories and yield the joined paths.  The list is
never reset between the two categories.  A failing `os.listdir(base)`
raises (modelled as `Except.error ()`). -/
def _get_typeshed_directories (fs : FS) (typeshedPath : String) (vi : VersionInfo) :
    Except Unit (List String) :=
  match scanBase fs vi ["2and3", toString vi.major] (pathJoin typeshedPath "stdlib") with
  | none => Except.error ()
  | some (quals1, out1) =>
    match scanBase fs vi quals1 (pathJoin typeshedPath "third_party") with
    | none => Except.error ()
    | some (_, out2) => Except.ok (out1 ++ out2)

/-- The class-level `TypeshedPlugin._version_cache` dict, keyed by
`version_info[:2]`. -/
abbrev VersionCache := List ((Nat × Nat) × StubMap)

/-- `TypeshedPlugin._cache_stub_file_map(version_info)`: return the cached
map for `version_info[:2]` if present; otherwise build it from the typeshed
directories, store it, and return it.  The third component records whether
directory scanning was performed (true exactly on a cache miss). -/
def _cache_stub_file_map (cache : VersionCache) (fs : FS) (typeshedPath : String)
    (vi : VersionInfo) : Except Unit (StubMap × VersionCache × Bool) :=
  let version := (vi.major, vi.minor)
  match dictGet cache version with
  | some m => Except.ok (m, cache, false)
  | none =>
    match _get_typeshed_directories fs typeshedPath vi with
    | Except.error e => Except.error e
    | Except.ok dirs =>
      let fileSet := _merge_create_stub_map fs dirs
      Except.ok (fileSet, cache ++ [(version, fileSet)], true)

/-- Module-like contexts as far as the plugin can distinguish them:
`plain` is any context produced outside this file (an ordinary concrete
module or other host context); `module` is the stub-only `ModuleContext`
built by the wrapper from a parsed stub; `moduleStub` is
`ModuleStubContext(evaluator, stub_module_node, path, code_lines,
actual_context, parent_module_context)` (the evaluator and the always-empty
`code_lines` argument are omitted).  Only `moduleStub` carries the
`actual_context` attribute. -/
inductive PyCtx where
  | plain (id : Nat)
  | module (node : Nat) (path : String)
  | moduleStub (node : Nat) (path : String) (actual : PyCtx) (parentModule : Option PyCtx)

/-- `isinstance(c, ModuleStubContext)`. -/
def isModuleStub : PyCtx → Bool
  | PyCtx.moduleStub _ _ _ _ => true
  | _ => false

/-- `isinstance(c, ModuleStubContext)` on an optional context. -/
def isModuleStubOpt : Option PyCtx → Bool
  | some c => isModuleStub c
  | none => false

/-- Attribute access `c.actual_context`: only `ModuleStubContext` defines
it; on every other context the access raises `AttributeError` (`none`). -/
def actualContextAttr : PyCtx → Option PyCtx
  | PyCtx.moduleStub _ _ actual _ => some actual
  | _ => none

/-- The evaluator together with the host facilities the plugin consumes:
the filesystem, the typeshed root (`_TYPESHED_PATH`),
`evaluator.grammar.version_info`, `_load_stub` (i.e. `evaluator.parse`
keyed by path, `none` modelling a raised `FileNotFoundError` for a file
removed from disk), and the host-computed `py__path__` of a module at a
given path (used for `parent_module_context.py__path__()`). -/
structure Evaluator where
  fs : FS
  typeshedPath : String
  versionInfo : VersionInfo
  parse : String → Option Nat
  modulePyPath : String → List String

/-- The parent context actually handed to the wrapped callback:
`parent_module_context.actual_context if isinstance(parent_module_context,
ModuleStubContext) else parent_module_context`. -/
def callbackParent : Option PyCtx → Option PyCtx
  | some (PyCtx.moduleStub _ _ actual _) => some actual
  | p => p

/-- Lines 107-111 of the wrapper: decide which stub index (if any) to
consult.  A single-component import other than `typing` consults the cached
per-version map (which may have to be built, possibly raising); otherwise,
a `ModuleStubContext` parent gets a fresh uncached map over its
`py__path__()`; otherwise no map is consulted.  Returns the optional map
and the (possibly updated) version cache. -/
def computeMap (cache : VersionCache) (ev : Evaluator) (importNames : List String)
    (importName : String) (parent : Option PyCtx) :
    Except Unit (Option StubMap × VersionCache) :=
  if importNames.length = 1 ∧ importName ≠ "typing" then
    match _cache_stub_file_map cache ev.fs ev.typeshedPath ev.versionInfo with
    | Except.error e => Except.error e
    | Except.ok (m, cache2, _) => Except.ok (some m, cache2)
  else
    match parent with
    | some (PyCtx.moduleStub _ path _ _) =>
      Except.ok (some (_merge_create_stub_map ev.fs (ev.modulePyPath path)), cache)
    | _ => Except.ok (none, cache)

/-- The function returned by `TypeshedPlugin.import_module(callback)`.
It first calls the inner callback (with a `ModuleStubContext` parent
replaced by its `actual_context`), then consults a stub index for
`import_names[-1]`; on a hit whose stub file still parses it returns either
a single stub-only `ModuleContext` (empty concrete result) or one
`ModuleStubContext` per concrete result; in every other case it returns the
callback's result unchanged.  The version cache is threaded through. -/
def wrapper (cb : Evaluator → List String → Option PyCtx → List String → List PyCtx)
    (cache : VersionCache) (ev : Evaluator) (importNames : List String)
    (parentModuleContext : Option PyCtx) (sysPath : List String) :
    Except Unit (List PyCtx × VersionCache) :=
  let contextSet := cb ev importNames (callbackParent parentModuleContext) sysPath
  match importNames.getLast? with
  | none => Except.error ()
  | some importName =>
    match computeMap cache ev importNames importName parentModuleContext with
    | Except.error e => Except.error e
    | Except.ok (mapOpt, cache2) =>
      match mapOpt with
      | none => Except.ok (contextSet, cache2)
      | some m =>
        match dictGet m importName with
        | none => Except.ok (contextSet, cache2)
        | some path =>
          match ev.parse path with
          | none => Except.ok (contextSet, cache2)
          | some node =>
            if contextSet.isEmpty then
              Except.ok ([PyCtx.module node path], cache2)
            else
              Except.ok (contextSet.map
                (fun c => PyCtx.moduleStub node path c parentModuleContext), cache2)

/-- A parse-tree name as the filter code inspects it: its string value, the
`type` of its defining statement (`name.get_definition().type`), the `type`
of its direct tree parent (`name.parent.type`), and an identifier keeping
distinct tree occurrences distinct. -/
structure TName where
  value : String
  defType : String
  parentType : String
  id : Nat
deriving DecidableEq

/-- A name produced by the wrapped (`_non_stub_filter`) filter: an
`AbstractTreeName` carrying its `parent_context` and `tree_name`. -/
structure FoundName where
  parentContext : PyCtx
  treeName : TName

/-- The name entries `StubParserTreeFilter._convert_names` can yield:
`TreeNameDefinition(self.context, name)` for an unmatched stub name, or a
`StubName`, whose `TreeNameDefinition` base (the navigational target) holds
`non_stub_name.parent_context.actual_context` and
`non_stub_name.tree_name`, and which additionally stores the stub scope and
stub tree name (the inferential target, see `StubName_infer`). -/
inductive NameEntry where
  | treeNameDef (context : PyCtx) (treeName : TName)
  | stubName (context : PyCtx) (treeName : TName)
      (stubParentContext : PyCtx) (stubTreeName : TName)

/-- `StubName.__init__`: calls
`super().__init__(parent_context.actual_context, tree_name)`.  The
attribute access `parent_context.actual_context` raises `AttributeError`
(`Except.error ()`) whenever `parent_context` is not a
`ModuleStubContext`. -/
def mkStubName (parentContext : PyCtx) (treeName : TName)
    (stubParentContext : PyCtx) (stubTreeName : TName) : Except Unit NameEntry :=
  match actualContextAttr parentContext with
  | none => Except.error ()
  | some actual =>
    Except.ok (NameEntry.stubName actual treeName stubParentContext stubTreeName)

/-- The `for non_stub_name in found_actual_names` loop body of
`_convert_names`: construct one `StubName` per found name, aborting at the
first raised error. -/
def buildStubNames (context : PyCtx) (name : TName) :
    List FoundName → Except Unit (List NameEntry)
  | [] => Except.ok []
  | fn :: rest =>
    match mkStubName fn.parentContext fn.treeName context name with
    | Except.error e => Except.error e
    | Except.ok entry =>
      match buildStubNames context name rest with
      | Except.error e => Except.error e
      | Except.ok entries => Except.ok (entry :: entries)

/-- `StubParserTreeFilter._convert_names(names)` (materialized by
`@to_list`): per stub name, look it up in the wrapped filter
(`self._non_stub_filter.get(name.value)`); with no hits yield
`TreeNameDefinition(self.context, name)`, otherwise yield one `StubName`
per hit.  An exception while building a `StubName` propagates and discards
the whole list. -/
def _convert_names (context : PyCtx) (nonStubGet : String → List FoundName) :
    List TName → Except Unit (List NameEntry)
  | [] => Except.ok []
  | name :: rest =>
    let found := nonStubGet name.value
    match buildStubNames context name found with
    | Except.error e => Except.error e
    | Except.ok stubs =>
      match _convert_names context nonStubGet rest with
      | Except.error e => Except.error e
      | Except.ok tail =>
        Except.ok ((if found.isEmpty then [NameEntry.treeNameDef context name] else [])
          ++ stubs ++ tail)

/-- Contexts as `StubName.infer` distinguishes them: `function` is a plain
`FunctionContext` (with its `parent_context` and `tree_node`),
`functionStub` a `FunctionStubContext` (a `FunctionContext` subclass), and
`other` anything else. -/
inductive ICtx where
  | function (parentContext : Nat) (treeNode : Nat)
  | functionStub (parentContext : Nat) (treeNode : Nat)
  | other (id : Nat)
deriving DecidableEq

/-- The `iterate` generator inside `StubName.infer`: every
`FunctionContext` (including the `FunctionStubContext` subclass) is
replaced by `FunctionStubContext(c.evaluator, c.parent_context,
c.tree_node)`; everything else passes through. -/
def iterateStubConvert : List ICtx → List ICtx
  | [] => []
  | ICtx.function p n :: rest => ICtx.functionStub p n :: iterateStubConvert rest
  | ICtx.functionStub p n :: rest => ICtx.functionStub p n :: iterateStubConvert rest
  | ICtx.other i :: rest => ICtx.other i :: iterateStubConvert rest

/-- `StubName.infer`: re-resolve the stored stub tree name through the
stored stub parent context via `tree_name_to_contexts` (a host facility,
abstracted as `treeNameToContexts`), converting function results into
stub-scoped function representations. -/
def StubName_infer (treeNameToContexts : PyCtx → TName → List ICtx)
    (stubParentContext : PyCtx) (stubTreeName : TName) : List ICtx :=
  iterateStubConvert (treeNameToContexts stubParentContext stubTreeName)

/-- The per-element conversion `StubName.infer` performs, written as a
plain map function for comparison with `iterateStubConvert`. -/
def stubConvertSpec : ICtx → ICtx
  | ICtx.function p n => ICtx.functionStub p n
  | ICtx.functionStub p n => ICtx.functionStub p n
  | ICtx.other i => ICtx.other i

/-- `StubParserTreeFilter._is_name_reachable(name)`: defer to the base
class check (`superReachable`, a host facility); additionally, when not in
search-global mode, a name whose definition is an import
(`import_from`/`import_name`) is unreachable unless its tree parent is an
aliased form (`import_as_name`/`dotted_as_name`). -/
def _is_name_reachable (superReachable : TName → Bool) (searchGlobal : Bool)
    (name : TName) : Bool :=
  if !superReachable name then false
  else if !searchGlobal then
    if name.defType = "import_from" ∨ name.defType = "import_name" then
      if ¬(name.parentType = "import_as_name" ∨ name.parentType = "dotted_as_name") then
        false
      else true
    else true
  else true

/-! ## Concrete fixtures used by witnesses and counterexamples -/

/-- A stub directory holding a standalone `copy.pyi`, a package directory
`json` with an inner `__init__.pyi`, and a standalone `fnmatch.pyi`. -/
def c5fs : FS :=
  { listdir := fun p => if p = "/stubs" then some ["copy.pyi", "json", "fnmatch.pyi"] else none
    isDir := fun p => p = "/stubs/json"
    isFile := fun p =>
      p = "/stubs/copy.pyi" ∨ p = "/stubs/json/__init__.pyi" ∨ p = "/stubs/fnmatch.pyi" }

/-- A typeshed tree whose `stdlib` category contains version directories
`3.6`, `3.7` (matching version (3,7)), a non-matching `4.1` and a
non-version entry, and whose `third_party` category contains `3.5`. -/
def locfs : FS :=
  { listdir := fun p =>
      if p = "/ts/stdlib" then some ["2and3", "3.6", "3.7", "junk", "4.1"]
      else if p = "/ts/third_party" then some ["2and3", "3.5"]
      else none
    isDir := fun _ => false
    isFile := fun _ => false }

/-- A filesystem on which every directory listing fails. -/
def c6fs : FS :=
  { listdir := fun _ => none, isDir := fun _ => false, isFile := fun _ => false }

/-- Evaluator whose version cache will already hold an index for (3,7);
its filesystem is entirely unreadable, so any attempted scan would fail. -/
def ev1 : Evaluator :=
  { fs := c6fs
    typeshedPath := "/ts"
    versionInfo := ⟨3, 7⟩
    parse := fun p => if p = "/ts/stdlib/2and3/fnmatch.pyi" then some 42 else none
    modulePyPath := fun _ => [] }

/-- A pre-populated version cache mapping (3,7) to a one-entry index. -/
def cache1 : VersionCache := [((3, 7), [("fnmatch", "/ts/stdlib/2and3/fnmatch.pyi")])]

/-- An inner resolver returning no concrete candidates. -/
def cbEmpty : Evaluator → List String → Option PyCtx → List String → List PyCtx :=
  fun _ _ _ _ => []

/-- An inner resolver returning two concrete candidates. -/
def cbTwo : Evaluator → List String → Option PyCtx → List String → List PyCtx :=
  fun _ _ _ _ => [PyCtx.plain 1, PyCtx.plain 2]

/-- Two stub directories both holding a standalone `json.pyi`. -/
def c8fs : FS :=
  { listdir := fun p =>
      if p = "/a" then some ["json.pyi"]
      else if p = "/b" then some ["json.pyi"]
      else none
    isDir := fun _ => false
    isFile := fun p => p = "/a/json.pyi" ∨ p = "/b/json.pyi" }

/-- Like `ev1`, but every parse attempt raises `FileNotFoundError` (the
stub file was removed from disk after the index resolved it). -/
def ev4 : Evaluator :=
  { fs := c6fs
    typeshedPath := "/ts"
    versionInfo := ⟨3, 7⟩
    parse := fun _ => none
    modulePyPath := fun _ => [] }

/-- An inner resolver equal to `cbEmpty` on every non-empty import path. -/
def cbLen : Evaluator → List String → Option PyCtx → List String → List PyCtx :=
  fun _ importNames _ _ => if importNames.length = 0 then [PyCtx.plain 5] else []

/-- A package-scoped stub directory containing a `typing.pyi`. -/
def fs3 : FS :=
  { listdir := fun p => if p = "/pkgstubs" then some ["typing.pyi"] else none
    isDir := fun _ => false
    isFile := fun p => p = "/pkgstubs/typing.pyi" }

/-- Evaluator for the `typing`-under-a-stub-parent scenario: the stub
parent's `py__path__()` is `["/pkgstubs"]` and `/pkgstubs/typing.pyi`
parses. -/
def ev3 : Evaluator :=
  { fs := fs3
    typeshedPath := "/ts"
    versionInfo := ⟨3, 7⟩
    parse := fun p => if p = "/pkgstubs/typing.pyi" then some 7 else none
    modulePyPath := fun p => if p = "/stub/pkg/__init__.pyi" then ["/pkgstubs"] else [] }

/-- A stub-backed (`ModuleStubContext`) parent module context. -/
def parent3 : Option PyCtx :=
  some (PyCtx.moduleStub 5 "/stub/pkg/__init__.pyi" (PyCtx.plain 0) none)

/-- An inner resolver returning one concrete candidate. -/
def cb3 : Evaluator → List String → Option PyCtx → List String → List PyCtx :=
  fun _ _ _ _ => [PyCtx.plain 1]

/-- A stub tree name `x` defined by a function definition. -/
def nameX : TName := ⟨"x", "funcdef", "file_input", 1⟩

/-- A wrapped-filter hit for `x` whose parent context is a plain concrete
context (it carries no `actual_context` attribute). -/
def getConcreteX : String → List FoundName :=
  fun v => if v = "x" then [⟨PyCtx.plain 3, ⟨"x", "funcdef", "file_input", 1⟩⟩] else []

/-- A stub-backed module scope. -/
def stubModCtx : PyCtx := PyCtx.moduleStub 9 "/s.pyi" (PyCtx.plain 8) none

/-- A wrapped-filter function whose hit for `x` has the stub-backed module
itself as parent context (the wiring `ModuleStubContext.get_filters`
actually produces), and no hit for any other name. -/
def getStubX : String → List FoundName :=
  fun v => if v = "x" then [⟨stubModCtx, ⟨"x", "funcdef", "file_input", 1⟩⟩] else []

/-- A stub tree name `y` declared only by a bare (unaliased) import. -/
def nameY : TName := ⟨"y", "import_from", "import_from", 2⟩

/-- The same import with an explicit `as` alias binding. -/
def nameYAlias : TName := ⟨"y", "import_from", "import_as_name", 3⟩

/-- A stub tree name `z` with no wrapped-filter hit. -/
def nameZ : TName := ⟨"z", "expr_stmt", "file_input", 4⟩

/-- A base-class reachability check accepting every name. -/
def supTrue : TName → Bool := fun _ => true

/-- A `tree_name_to_contexts` stand-in inferring one function context and
one non-function context for any stub name. -/
def tncW : PyCtx → TName → List ICtx :=
  fun _ _ => [ICtx.function 0 1, ICtx.other 2]

/-! ## Helper lemmas -/

theorem dictGet_append {α β : Type} [DecidableEq α] (a b : List (α × β)) (k : α) :
    dictGet (a ++ b) k = (dictGet b k).or (dictGet a k) := by
  induction a with
  | nil => simp [dictGet]
  | cons p rest ih => simp [dictGet, ih, Option.or_assoc]

theorem merge_concat (fs : FS) (ds : List String) (d : String) :
    _merge_create_stub_map fs (ds ++ [d]) =
      _merge_create_stub_map fs ds ++ _create_stub_map fs d := by
  unfold _merge_create_stub_map
  rw [List.foldl_append]
  rfl

theorem versionMatches_mem (vi : VersionInfo) (l : List String) (e : String) :
    e ∈ versionMatches vi l ↔
      e ∈ l ∧ ∃ mi, matchVersionPattern e = some (vi.major, mi) ∧ mi ≤ vi.minor := by
  unfold versionMatches
  rw [List.mem_filter]
  constructor
  · rintro ⟨h1, h2⟩
    refine ⟨h1, ?_⟩
    cases hm : matchVersionPattern e with
    | none => rw [hm] at h2; simp at h2
    | some p =>
      obtain ⟨ma, mi⟩ := p
      rw [hm] at h2
      simp only [decide_eq_true_eq] at h2
      have hpair : (ma, mi) = (vi.major, mi) := by rw [h2.1]
      exact ⟨mi, congrArg some hpair, h2.2⟩
  · rintro ⟨h1, mi, hm, hle⟩
    refine ⟨h1, ?_⟩
    rw [hm]
    simp [hle]

theorem foldl_merge (fs : FS) (ds : List String) (init : StubMap) :
    ds.foldl (fun m d => m ++ _create_stub_map fs d) init =
      init ++ (ds.map (_create_stub_map fs)).flatten := by
  induction ds generalizing init with
  | nil => simp
  | cons d ds ih => simp [ih, List.append_assoc]

theorem merge_eq_flatten (fs : FS) (ds : List String) :
    _merge_create_stub_map fs ds = (ds.map (_create_stub_map fs)).flatten := by
  unfold _merge_create_stub_map
  rw [foldl_merge]
  rfl

/-! ## Claim theorems -/

/-- Claim C4: for every version, the Stub Directory Locator yields, per root
category in the fixed order `stdlib` then `third_party`, one directory per
qualifier in the running list, where the list is seeded with `2and3` and
the major-only qualifier, grows by every listed subdirectory matching
`<major>.<minor>` with the requested major and a minor at most the
requested one, and is never reset between the two categories (so stdlib
version qualifiers are yielded again under `third_party`). -/
theorem c4_locator_accumulates (fs : FS) (tsPath : String) (vi : VersionInfo)
    (l1 l2 : List String)
    (h1 : fs.listdir (pathJoin tsPath "stdlib") = some l1)
    (h2 : fs.listdir (pathJoin tsPath "third_party") = some l2) :
    _get_typeshed_directories fs tsPath vi =
      Except.ok
        ((("2and3" :: toString vi.major :: versionMatches vi l1).map
            (fun q => pathJoin (pathJoin tsPath "stdlib") q)) ++
          (("2and3" :: toString vi.major :: (versionMatches vi l1 ++ versionMatches vi l2)).map
            (fun q => pathJoin (pathJoin tsPath "third_party") q))) ∧
    (∀ q ∈ versionMatches vi l1,
        pathJoin (pathJoin tsPath "third_party") q ∈
          ("2and3" :: toString vi.major :: (versionMatches vi l1 ++ versionMatches vi l2)).map
            (fun q => pathJoin (pathJoin tsPath "third_party") q)) ∧
    (∀ e, e ∈ versionMatches vi l1 ↔
        e ∈ l1 ∧ ∃ mi, matchVersionPattern e = some (vi.major, mi) ∧ mi ≤ vi.minor) := by
  refine ⟨?_, ?_, fun e => versionMatches_mem vi l1 e⟩
  · simp only [_get_typeshed_directories, scanBase, h1, h2]
    simp [List.append_assoc]
  · intro q hq
    refine List.mem_map_of_mem _ ?_
    simp [hq]

/-- Claim C4 witness: concrete directory layout for version (3,7); the
stdlib qualifiers `3.6` and `3.7` are yielded again under `third_party`,
before `third_party`'s own `3.5`. -/
theorem c4_locator_accumulates_witness :
    _get_typeshed_directories locfs "/ts" ⟨3, 7⟩ =
      Except.ok ["/ts/stdlib/2and3", "/ts/stdlib/3", "/ts/stdlib/3.6", "/ts/stdlib/3.7",
        "/ts/third_party/2and3", "/ts/third_party/3", "/ts/third_party/3.6",
        "/ts/third_party/3.7", "/ts/third_party/3.5"] ∧
    "/ts/third_party/3.6" ∈ ["/ts/third_party/2and3", "/ts/third_party/3",
      "/ts/third_party/3.6", "/ts/third_party/3.7", "/ts/third_party/3.5"] := by
  have h := c4_locator_accumulates locfs "/ts" ⟨3, 7⟩
    ["2and3", "3.6", "3.7", "junk", "4.1"] ["2and3", "3.5"] rfl rfl
  exact ⟨h.1.trans rfl, h.2.1 "3.6" (by decide)⟩

/-- Claim C5 (code bug): the claim and the docstring of `_create_stub_map`
say a standalone stub file `<stem>.pyi` registers under exactly its stem,
but the code computes `entry.rstrip('.pyi')`, which strips the trailing
character SET `{'.', 'p', 'y', 'i'}`: `copy.pyi` registers under `"co"`,
and `"copy"` is absent from the mapping.  The package-form and
`__init__`-exclusion parts behave as claimed. -/
theorem c5_rstrip_strips_charset :
    _create_stub_map c5fs "/stubs" =
      [("co", "/stubs/copy.pyi"), ("json", "/stubs/json/__init__.pyi"),
        ("fnmatch", "/stubs/fnmatch.pyi")] ∧
    dictGet (_create_stub_map c5fs "/stubs") "copy" = none ∧
    dictGet (_create_stub_map c5fs "/stubs") "co" = some "/stubs/copy.pyi" ∧
    pyRstripPyi "copy.pyi" = "co" ∧ pyRstripPyi "fnmatch.pyi" = "fnmatch" := by
  exact ⟨by decide, by decide, by decide, by decide, by decide⟩

/-- Claim C6 counterexample: on a filesystem where every listing fails
(e.g. a missing typeshed root or root category), enumerating the stub
directories raises (`os.listdir(base)` in `_get_typeshed_directories` is
not guarded by any `try`/`except`), contradicting the claim that
enumeration never raises an error visible to the caller. -/
theorem c6_locator_raises_counterexample :
    _get_typeshed_directories c6fs "/typeshed" ⟨3, 7⟩ = Except.error () := rfl

/-- Claim C6 (amended): building stub indices never raises — a missing or
unreadable directory degrades to an empty per-directory mapping, and a
merge over directories that all fail to list degrades to an empty index —
but enumerating the stub directories (`_get_typeshed_directories`) does
raise when a root category directory cannot be listed. -/
theorem c6_stub_map_degrades (fs : FS) :
    (∀ d, fs.listdir d = none → _create_stub_map fs d = []) ∧
    (∀ ds, (∀ d ∈ ds, fs.listdir d = none) → _merge_create_stub_map fs ds = []) := by
  have hc : ∀ d, fs.listdir d = none → _create_stub_map fs d = [] := by
    intro d h
    unfold _create_stub_map
    rw [h]
  refine ⟨hc, ?_⟩
  intro ds h
  rw [merge_eq_flatten]
  have hmap : ds.map (_create_stub_map fs) = ds.map (fun _ => ([] : StubMap)) := by
    refine List.map_congr_left ?_
    intro d hd
    exact hc d (h d hd)
  rw [hmap]
  simp

/-- Claim C6 witness: on the all-failing filesystem, a single directory and
a two-directory merge both degrade to the empty index. -/
theorem c6_stub_map_degrades_witness :
    _create_stub_map c6fs "/missing" = [] ∧
    _merge_create_stub_map c6fs ["/missing", "/gone"] = [] := by
  have h := c6_stub_map_degrades c6fs
  exact ⟨h.1 "/missing" rfl, h.2 ["/missing", "/gone"] (by intro d _; rfl)⟩

/-- Claim C8: the merged stub index applies each directory's own mapping in
sequence; a name's resolution is the last directory's binding when present,
otherwise whatever the earlier directories produced — in particular, when
two directories both register a name, the later one wins. -/
theorem c8_merge_override_by_recency (fs : FS) (n : String) :
    (∀ ds d, dictGet (_merge_create_stub_map fs (ds ++ [d])) n =
        (dictGet (_create_stub_map fs d) n).or
          (dictGet (_merge_create_stub_map fs ds) n)) ∧
    (∀ d1 d2 p1 p2, dictGet (_create_stub_map fs d1) n = some p1 →
        dictGet (_create_stub_map fs d2) n = some p2 →
        dictGet (_merge_create_stub_map fs [d1, d2]) n = some p2) := by
  constructor
  · intro ds d
    rw [merge_concat, dictGet_append]
  · intro d1 d2 p1 p2 _ h2
    have hsplit : ([d1, d2] : List String) = [d1] ++ [d2] := rfl
    rw [hsplit, merge_concat, dictGet_append]
    simp [_merge_create_stub_map, dictGet_append, h2]

/-- Claim C8 witness: two concrete directories both registering `json`;
the merged index holds the later directory's path. -/
theorem c8_merge_override_by_recency_witness :
    dictGet (_merge_create_stub_map c8fs ["/a", "/b"]) "json" = some "/b/json.pyi" := by
  exact (c8_merge_override_by_recency c8fs "json").2 "/a" "/b"
    "/a/json.pyi" "/b/json.pyi" (by decide) (by decide)

/-- Claim C9: a second index request for the same (major, minor) key is a
cache hit — it returns exactly the stored index, leaves the cache
unchanged, and performs no directory scanning (the scan flag is false) —
and no call ever removes or replaces an existing cache entry. -/
theorem c9_version_cache (cache : VersionCache) (fs : FS) (ts : String) (vi : VersionInfo) :
    (∀ m, dictGet cache (vi.major, vi.minor) = some m →
        _cache_stub_file_map cache fs ts vi = Except.ok (m, cache, false)) ∧
    (∀ m c1 b, _cache_stub_file_map cache fs ts vi = Except.ok (m, c1, b) →
        dictGet c1 (vi.major, vi.minor) = some m ∧
        (∀ fs2 ts2, _cache_stub_file_map c1 fs2 ts2 vi = Except.ok (m, c1, false)) ∧
        (∀ k m0, dictGet cache k = some m0 → dictGet c1 k = some m0)) := by
  have hit : ∀ m, dictGet cache (vi.major, vi.minor) = some m →
      _cache_stub_file_map cache fs ts vi = Except.ok (m, cache, false) := by
    intro m hm
    simp only [_cache_stub_file_map]
    rw [hm]
  refine ⟨hit, ?_⟩
  intro m c1 b hok
  simp only [_cache_stub_file_map] at hok
  cases hget : dictGet cache (vi.major, vi.minor) with
  | some m0 =>
    rw [hget] at hok
    simp only [Except.ok.injEq, Prod.mk.injEq] at hok
    obtain ⟨hm, hc, _⟩ := hok
    subst hm
    subst hc
    refine ⟨hget, ?_, fun k m1 h1 => h1⟩
    intro fs2 ts2
    simp only [_cache_stub_file_map]
    rw [hget]
  | none =>
    rw [hget] at hok
    cases hdirs : _get_typeshed_directories fs ts vi with
    | error e =>
      rw [hdirs] at hok
      simp at hok
    | ok dirs =>
      rw [hdirs] at hok
      simp only [Except.ok.injEq, Prod.mk.injEq] at hok
      obtain ⟨hm, hc, _⟩ := hok
      subst hm
      subst hc
      have hkey : dictGet
          (cache ++ [((vi.major, vi.minor), _merge_create_stub_map fs dirs)])
          (vi.major, vi.minor) = some (_merge_create_stub_map fs dirs) := by
        rw [dictGet_append]
        simp [dictGet, hget]
      refine ⟨hkey, ?_, ?_⟩
      · intro fs2 ts2
        simp only [_cache_stub_file_map]
        rw [hkey]
      · intro k m0 h0
        rw [dictGet_append]
        by_cases hk : ((vi.major, vi.minor) : Nat × Nat) = k
        · rw [← hk] at h0
          rw [hget] at h0
          exact absurd h0 (by simp)
        · simp [dictGet, hk, h0]

/-- Claim C9 witness: with (3,7) already cached, a request returns the
stored index without scanning, even though every directory listing on this
filesystem fails; the entry persists and is returned again unchanged. -/
theorem c9_version_cache_witness :
    _cache_stub_file_map cache1 c6fs "/ts" ⟨3, 7⟩ =
      Except.ok ([("fnmatch", "/ts/stdlib/2and3/fnmatch.pyi")], cache1, false) ∧
    dictGet cache1 ((3 : Nat), (7 : Nat)) =
      some [("fnmatch", "/ts/stdlib/2and3/fnmatch.pyi")] := by
  refine ⟨?_, by decide⟩
  exact (c9_version_cache cache1 c6fs "/ts" ⟨3, 7⟩).1
    [("fnmatch", "/ts/stdlib/2and3/fnmatch.pyi")] (by decide)

/-- Claim C1: when a stub file is found for the final import-path component
(the consulted index resolves it and the file still parses), an empty
concrete result set yields exactly one stub-only `ModuleContext` built from
the stub document (which is not an `OverlaidModule`), and a non-empty
concrete result set yields one `ModuleStubContext` per concrete candidate,
each pairing that candidate with the same stub document node and the same
stub path. -/
theorem c1_overlay_per_candidate
    (cb : Evaluator → List String → Option PyCtx → List String → List PyCtx)
    (cache : VersionCache) (ev : Evaluator) (importNames : List String)
    (parent : Option PyCtx) (sysPath : List String)
    (importName path : String) (m : StubMap) (node : Nat) (c2 : VersionCache)
    (hlast : importNames.getLast? = some importName)
    (hmap : computeMap cache ev importNames importName parent = Except.ok (some m, c2))
    (hpath : dictGet m importName = some path)
    (hnode : ev.parse path = some node) :
    (cb ev importNames (callbackParent parent) sysPath = [] →
        wrapper cb cache ev importNames parent sysPath =
          Except.ok ([PyCtx.module node path], c2)) ∧
    isModuleStub (PyCtx.module node path) = false ∧
    (∀ cs, cb ev importNames (callbackParent parent) sysPath = cs → cs ≠ [] →
        wrapper cb cache ev importNames parent sysPath =
          Except.ok (cs.map (fun c => PyCtx.moduleStub node path c parent), c2)) := by
  refine ⟨?_, rfl, ?_⟩
  · intro hcb
    simp [wrapper, hlast, hmap, hpath, hnode, hcb]
  · intro cs hcb hne
    have hempty : cs.isEmpty = false := by
      simpa [List.isEmpty_iff] using hne
    simp [wrapper, hlast, hmap, hpath, hnode, hcb, hempty]

/-- Claim C1 witness: a cached index resolves `fnmatch`; with no concrete
candidates the wrapper returns the single stub-only module, with two
concrete candidates it returns two overlaid modules sharing the stub node
and path. -/
theorem c1_overlay_per_candidate_witness :
    wrapper cbEmpty cache1 ev1 ["fnmatch"] none [] =
      Except.ok ([PyCtx.module 42 "/ts/stdlib/2and3/fnmatch.pyi"], cache1) ∧
    wrapper cbTwo cache1 ev1 ["fnmatch"] none [] =
      Except.ok ([PyCtx.moduleStub 42 "/ts/stdlib/2and3/fnmatch.pyi" (PyCtx.plain 1) none,
        PyCtx.moduleStub 42 "/ts/stdlib/2and3/fnmatch.pyi" (PyCtx.plain 2) none],
        cache1) := by
  constructor
  · exact (c1_overlay_per_candidate cbEmpty cache1 ev1 ["fnmatch"] none []
      "fnmatch" "/ts/stdlib/2and3/fnmatch.pyi"
      [("fnmatch", "/ts/stdlib/2and3/fnmatch.pyi")] 42 cache1
      rfl rfl rfl rfl).1 rfl
  · exact (c1_overlay_per_candidate cbTwo cache1 ev1 ["fnmatch"] none []
      "fnmatch" "/ts/stdlib/2and3/fnmatch.pyi"
      [("fnmatch", "/ts/stdlib/2and3/fnmatch.pyi")] 42 cache1
      rfl rfl rfl rfl).2.2 [PyCtx.plain 1, PyCtx.plain 2] rfl (by simp)

/-- Claim C10: the wrapper's result depends on the inner resolver only
through its value at the evaluation context, the unchanged import path and
search path, and the unwrapped parent context; the parent handed to the
inner resolver is the concrete counterpart (`actual_context`) when the
parent is a `ModuleStubContext`, and the parent itself otherwise. -/
theorem c10_callback_parent_unwrap
    (cb1 cb2 : Evaluator → List String → Option PyCtx → List String → List PyCtx)
    (cache : VersionCache) (ev : Evaluator) (importNames : List String)
    (parent : Option PyCtx) (sysPath : List String)
    (h : cb1 ev importNames (callbackParent parent) sysPath =
        cb2 ev importNames (callbackParent parent) sysPath) :
    wrapper cb1 cache ev importNames parent sysPath =
      wrapper cb2 cache ev importNames parent sysPath ∧
    (∀ node path actual pm,
        callbackParent (some (PyCtx.moduleStub node path actual pm)) = some actual) ∧
    (∀ p, isModuleStubOpt p = false → callbackParent p = p) := by
  refine ⟨?_, fun node path actual pm => rfl, ?_⟩
  · unfold wrapper
    rw [h]
  · intro p hp
    cases p with
    | none => rfl
    | some c =>
      cases c with
      | plain i => rfl
      | module n pa => rfl
      | moduleStub n pa a pm => simp [isModuleStubOpt, isModuleStub] at hp

/-- Claim C10 witness: two syntactically different resolvers agreeing at
the unwrapped arguments give identical wrapper results; a stub-backed
parent is unwrapped to its concrete counterpart and a plain parent passes
through. -/
theorem c10_callback_parent_unwrap_witness :
    wrapper cbEmpty cache1 ev1 ["fnmatch"] none [] =
      wrapper cbLen cache1 ev1 ["fnmatch"] none [] ∧
    callbackParent parent3 = some (PyCtx.plain 0) ∧
    callbackParent (some (PyCtx.plain 4)) = some (PyCtx.plain 4) := by
  have h := c10_callback_parent_unwrap cbEmpty cbLen cache1 ev1 ["fnmatch"] none [] rfl
  exact ⟨h.1, h.2.1 5 "/stub/pkg/__init__.pyi" (PyCtx.plain 0) none,
    h.2.2 (some (PyCtx.plain 4)) rfl⟩

/-- Claim C3 counterexample: a single-component import of the excluded name
`typing` under a stub-backed parent context does NOT return the inner
resolver's result unchanged: the `elif isinstance(parent_module_context,
ModuleStubContext)` branch consults the parent-scoped index, finds
`typing`, and returns an overlaid module instead. -/
theorem c3_typing_under_stub_parent_counterexample :
    wrapper cb3 [] ev3 ["typing"] parent3 [] =
      Except.ok ([PyCtx.moduleStub 7 "/pkgstubs/typing.pyi" (PyCtx.plain 1) parent3], []) ∧
    cb3 ev3 ["typing"] (callbackParent parent3) [] = [PyCtx.plain 1] ∧
    ([PyCtx.moduleStub 7 "/pkgstubs/typing.pyi" (PyCtx.plain 1) parent3] : List PyCtx) ≠
      [PyCtx.plain 1] :=
  ⟨rfl, rfl, by simp⟩

/-- Claim C3 (amended): when no stub applies — the final component is
`typing` while the parent is not stub-backed, the path has several
components while the parent is not stub-backed, the final component is
absent from the consulted index, or the resolved stub path's file has been
removed when the document is requested — the wrapper returns exactly the
inner resolver's result set, unchanged, and raises no error.  (Under a
stub-backed parent, even a single-component `typing` import consults the
parent-scoped index; see the counterexample.) -/
theorem c3_no_stub_returns_inner
    (cb : Evaluator → List String → Option PyCtx → List String → List PyCtx)
    (cache : VersionCache) (ev : Evaluator) (importNames : List String)
    (parent : Option PyCtx) (sysPath : List String) (importName : String)
    (hlast : importNames.getLast? = some importName) :
    (importName = "typing" → isModuleStubOpt parent = false →
        computeMap cache ev importNames importName parent = Except.ok (none, cache)) ∧
    (2 ≤ importNames.length → isModuleStubOpt parent = false →
        computeMap cache ev importNames importName parent = Except.ok (none, cache)) ∧
    (∀ mo c2, computeMap cache ev importNames importName parent = Except.ok (mo, c2) →
        (mo = none ∨
          (∃ m, mo = some m ∧ dictGet m importName = none) ∨
          (∃ m p, mo = some m ∧ dictGet m importName = some p ∧ ev.parse p = none)) →
        wrapper cb cache ev importNames parent sysPath =
          Except.ok (cb ev importNames (callbackParent parent) sysPath, c2)) := by
  have hnomap : ∀ imn : List String, isModuleStubOpt parent = false →
      ¬(imn.length = 1 ∧ importName ≠ "typing") →
      computeMap cache ev imn importName parent = Except.ok (none, cache) := by
    intro imn hp hcond
    unfold computeMap
    rw [if_neg hcond]
    cases parent with
    | none => rfl
    | some c =>
      cases c with
      | plain i => rfl
      | module n pa => rfl
      | moduleStub n pa a pm => simp [isModuleStubOpt, isModuleStub] at hp
  refine ⟨?_, ?_, ?_⟩
  · intro ht hp
    exact hnomap importNames hp (by simp [ht])
  · intro hlen hp
    refine hnomap importNames hp ?_
    rintro ⟨h1, _⟩
    omega
  · intro mo c2 hok hcase
    rcases hcase with hnone | ⟨m, hmo, hget⟩ | ⟨m, p, hmo, hget, hparse⟩
    · subst hnone
      simp [wrapper, hlast, hok]
    · subst hmo
      simp [wrapper, hlast, hok, hget]
    · subst hmo
      simp [wrapper, hlast, hok, hget, hparse]

/-- Claim C3 witness: (a) `typing` with no parent consults no map; (b) an
index miss (`flask` not in the cached index) returns the two concrete
candidates with no error; (c) a removed stub file (`fnmatch` resolves but
no longer parses) returns the two concrete candidates with no error. -/
theorem c3_no_stub_returns_inner_witness :
    computeMap [] ev3 ["typing"] "typing" none = Except.ok (none, []) ∧
    wrapper cbTwo cache1 ev1 ["flask"] none [] =
      Except.ok ([PyCtx.plain 1, PyCtx.plain 2], cache1) ∧
    wrapper cbTwo cache1 ev4 ["fnmatch"] none [] =
      Except.ok ([PyCtx.plain 1, PyCtx.plain 2], cache1) := by
  refine ⟨?_, ?_, ?_⟩
  · exact (c3_no_stub_returns_inner cbEmpty [] ev3 ["typing"] none [] "typing" rfl).1
      rfl rfl
  · exact (c3_no_stub_returns_inner cbTwo cache1 ev1 ["flask"] none [] "flask" rfl).2.2
      (some [("fnmatch", "/ts/stdlib/2and3/fnmatch.pyi")]) cache1 rfl
      (Or.inr (Or.inl ⟨[("fnmatch", "/ts/stdlib/2and3/fnmatch.pyi")], rfl, rfl⟩))
  · exact (c3_no_stub_returns_inner cbTwo cache1 ev4 ["fnmatch"] none [] "fnmatch" rfl).2.2
      (some [("fnmatch", "/ts/stdlib/2and3/fnmatch.pyi")]) cache1 rfl
      (Or.inr (Or.inr ⟨[("fnmatch", "/ts/stdlib/2and3/fnmatch.pyi")],
        "/ts/stdlib/2and3/fnmatch.pyi", rfl, rfl, rfl⟩))

theorem buildStubNames_ok (context : PyCtx) (name : TName) (found : List FoundName)
    (h : ∀ fn ∈ found, isModuleStub fn.parentContext = true) :
    buildStubNames context name found =
      Except.ok (found.map (fun fn =>
        NameEntry.stubName ((actualContextAttr fn.parentContext).getD fn.parentContext)
          fn.treeName context name)) := by
  induction found with
  | nil => rfl
  | cons fn rest ih =>
    have h1 := h fn (List.mem_cons_self fn rest)
    have hrest : ∀ x ∈ rest, isModuleStub x.parentContext = true :=
      fun x hx => h x (List.mem_cons_of_mem fn hx)
    unfold buildStubNames mkStubName
    cases hpc : fn.parentContext with
    | plain i => rw [hpc] at h1; simp [isModuleStub] at h1
    | module n p => rw [hpc] at h1; simp [isModuleStub] at h1
    | moduleStub n p a pm =>
      rw [ih hrest]
      simp [actualContextAttr, hpc]

theorem iterateStubConvert_eq_map (l : List ICtx) :
    iterateStubConvert l = l.map stubConvertSpec := by
  induction l with
  | nil => rfl
  | cons c rest ih => cases c <;> simp [iterateStubConvert, stubConvertSpec, ih]

theorem convert_names_ok (context : PyCtx) (nonStubGet : String → List FoundName)
    (names : List TName)
    (h : ∀ n ∈ names, ∀ fn ∈ nonStubGet n.value, isModuleStub fn.parentContext = true) :
    _convert_names context nonStubGet names =
      Except.ok (names.flatMap (fun name =>
        (if (nonStubGet name.value).isEmpty
          then [NameEntry.treeNameDef context name] else []) ++
        (nonStubGet name.value).map (fun fn =>
          NameEntry.stubName ((actualContextAttr fn.parentContext).getD fn.parentContext)
            fn.treeName context name))) := by
  induction names with
  | nil => rfl
  | cons name rest ih =>
    have hname : ∀ fn ∈ nonStubGet name.value, isModuleStub fn.parentContext = true :=
      h name (List.mem_cons_self name rest)
    have hrest : ∀ n ∈ rest, ∀ fn ∈ nonStubGet n.value, isModuleStub fn.parentContext = true :=
      fun n hn => h n (List.mem_cons_of_mem name hn)
    simp only [_convert_names]
    rw [buildStubNames_ok context name _ hname, ih hrest]
    simp [List.flatMap_cons, List.append_assoc]

/-- Claim C2 counterexample: with one same-named concrete declaration
whose parent context is a plain concrete context — exactly the situation
the claim describes — the filter does not emit a merged name entry at all:
`StubName.__init__` evaluates `parent_context.actual_context`, which only
`ModuleStubContext` instances define, so the enumeration raises
`AttributeError` instead. -/
theorem c2_concrete_parent_raises_counterexample :
    _convert_names stubModCtx getConcreteX [nameX] = Except.error () ∧
    (_convert_names stubModCtx getConcreteX [nameX]).isOk = false :=
  ⟨rfl, rfl⟩

/-- Claim C2 (amended): for every name declared in a stub-backed module
scope, given the wrapped filter's same-named hits: when there is no hit,
exactly one entry whose navigational and inferential targets are both the
stub declaration; when there are hits — provided every hit's parent context
is stub-backed, otherwise the enumeration raises — one `StubName` per hit,
whose navigational target pairs the hit's parent-context's concrete
counterpart (`actual_context`) with the hit's own tree name, and whose
inferential target re-resolves the stored stub declaration through the stub
scope, converting any function result into a stub-scoped function
representation. -/
theorem c2_merged_name_entries
    (context : PyCtx) (nonStubGet : String → List FoundName) (names : List TName)
    (treeNameToContexts : PyCtx → TName → List ICtx)
    (h : ∀ n ∈ names, ∀ fn ∈ nonStubGet n.value, isModuleStub fn.parentContext = true) :
    _convert_names context nonStubGet names =
      Except.ok (names.flatMap (fun name =>
        (if (nonStubGet name.value).isEmpty
          then [NameEntry.treeNameDef context name] else []) ++
        (nonStubGet name.value).map (fun fn =>
          NameEntry.stubName ((actualContextAttr fn.parentContext).getD fn.parentContext)
            fn.treeName context name))) ∧
    (∀ spc stn, StubName_infer treeNameToContexts spc stn =
        (treeNameToContexts spc stn).map stubConvertSpec) ∧
    (∀ p n, stubConvertSpec (ICtx.function p n) = ICtx.functionStub p n) ∧
    (∀ i, stubConvertSpec (ICtx.other i) = ICtx.other i) :=
  ⟨convert_names_ok context nonStubGet names h,
    fun _ _ => iterateStubConvert_eq_map _,
    fun _ _ => rfl, fun _ => rfl⟩

/-- Claim C2 witness: `x` has one hit whose parent is the stub-backed
module, producing one `StubName` navigating to the concrete counterpart;
`z` has no hit, producing one `TreeNameDefinition` on the stub scope;
inference through `x` converts the function context to a stub-scoped one
and passes the other context through. -/
theorem c2_merged_name_entries_witness :
    _convert_names stubModCtx getStubX [nameX, nameZ] =
      Except.ok [NameEntry.stubName (PyCtx.plain 8) ⟨"x", "funcdef", "file_input", 1⟩
          stubModCtx nameX,
        NameEntry.treeNameDef stubModCtx nameZ] ∧
    StubName_infer tncW stubModCtx nameX = [ICtx.functionStub 0 1, ICtx.other 2] := by
  have h := c2_merged_name_entries stubModCtx getStubX [nameX, nameZ] tncW (by decide)
  exact ⟨h.1.trans rfl, (h.2.1 stubModCtx nameX).trans rfl⟩

/-- Claim C7: in module-attribute (non-search-global) enumeration a
stub-declared name whose definition is an import and whose tree parent is
not an aliased import form is excluded; search-global lookups are not
affected by this rule (reachability equals the base check); and with an
explicit alias form the name is again exactly as reachable as the base
check allows. -/
theorem c7_bare_import_hidden (superReachable : TName → Bool) (name : TName)
    (hdef : name.defType = "import_from" ∨ name.defType = "import_name") :
    (name.parentType ≠ "import_as_name" ∧ name.parentType ≠ "dotted_as_name" →
        _is_name_reachable superReachable false name = false) ∧
    (_is_name_reachable superReachable true name = superReachable name) ∧
    ((name.parentType = "import_as_name" ∨ name.parentType = "dotted_as_name") →
        _is_name_reachable superReachable false name = superReachable name) := by
  refine ⟨?_, ?_, ?_⟩
  · rintro ⟨h1, h2⟩
    cases hsup : superReachable name with
    | false => simp [_is_name_reachable, hsup]
    | true =>
      rcases hdef with hd | hd <;> simp [_is_name_reachable, hsup, hd, h1, h2]
  · cases hsup : superReachable name with
    | false => simp [_is_name_reachable, hsup]
    | true => simp [_is_name_reachable, hsup]
  · intro halias
    cases hsup : superReachable name with
    | false => simp [_is_name_reachable, hsup]
    | true =>
      rcases hdef with hd | hd <;> rcases halias with ha | ha <;>
        simp [_is_name_reachable, hsup, hd, ha]

/-- Claim C7 witness: under an accepting base check, the bare import `y` is
hidden from module-attribute enumeration but visible to search-global
lookups, and the aliased variant is visible to module-attribute
enumeration. -/
theorem c7_bare_import_hidden_witness :
    _is_name_reachable supTrue false nameY = false ∧
    _is_name_reachable supTrue true nameY = true ∧
    _is_name_reachable supTrue false nameYAlias = true := by
  have hy := c7_bare_import_hidden supTrue nameY (Or.inl rfl)
  have ha := c7_bare_import_hidden supTrue nameYAlias (Or.inl rfl)
  exact ⟨hy.1 (by exact ⟨by decide, by decide⟩), hy.2.1, ha.2.2 (Or.inl rfl)⟩

end Typeshed
